import Mathlib

/-!
Verification development for the `trello_board` repository.

The repository is a three-stage report pipeline: two Trello fetch tools
(`config/trello_tools.py`: `BoardDataFetcherTool._run` and
`CardDataFetcherTool._run`) and an orchestrating application
(`trello_board_app.py`: `create_agents`, `create_tasks`,
`generate_trello_report`).

We give a shallow embedding of that code.  Pure data handling (request
construction, the status-code branch, JSON serialisation of the fallback
payload, the printed lines) is translated directly from the Python source.
External effects are made explicit:

* the process environment (`os.environ`) is an association list threaded
  through the functions;
* the HTTP layer (`requests.get`) is a function argument
  `http : HttpRequest → HttpResponse`, so one run sees a fixed response per
  request;
* the reasoning substrate (the crewai LLM agents) is a function argument
  `behave : TaskSpec → String → StageBehavior` that decides, per task and
  input context, which tool calls the agent attempts and what text it
  finally produces (`none` models a raised exception);
* the crewai `Crew.kickoff` sequential contract is modelled by
  `kickoffAux`: tasks run in order, each receiving the previous task's
  output as its context, a task exception aborts the run, and the
  result's raw text is the last task's output.  A tool call is executed
  only when the corresponding tool is bound to the task's agent.

Every run-level function also returns its observable traces: the HTTP
requests issued, the lines printed to stdout, and (for the application
entry point) the messages routed to the UI via `st.error`.
-/

/-- Parsed JSON values, the result of `response.json()` and the argument of
`json.dumps`. -/
inductive JsonVal where
  | null : JsonVal
  | bool (b : Bool) : JsonVal
  | num (n : Int) : JsonVal
  | str (s : String) : JsonVal
  | arr (elems : List JsonVal) : JsonVal
  | obj (fields : List (String × JsonVal)) : JsonVal

/-- Escape of a string for JSON output, as `json.dumps` does for strings
containing only printable characters: backslash and double quote are
escaped, other characters pass through. -/
def escapeJsonString (s : String) : String :=
  String.mk (s.data.flatMap fun ch =>
    if ch = '\\' then ['\\', '\\']
    else if ch = '"' then ['\\', '"']
    else [ch])

mutual

/-- Serialisation of a JSON value with the default `json.dumps` separators
(item separator a comma and a space, key separator a colon and a space). -/
def jsonDumps : JsonVal → String
  | .null => "null"
  | .bool true => "true"
  | .bool false => "false"
  | .num n => toString n
  | .str s => "\"" ++ escapeJsonString s ++ "\""
  | .arr elems => "[" ++ String.intercalate ", " (jsonDumpsList elems) ++ "]"
  | .obj fields => "\x7b" ++ String.intercalate ", " (jsonDumpsObj fields) ++ "\x7d"

/-- Serialisation of each element of a JSON array. -/
def jsonDumpsList : List JsonVal → List String
  | [] => []
  | v :: vs => jsonDumps v :: jsonDumpsList vs

/-- Serialisation of each key/value pair of a JSON object. -/
def jsonDumpsObj : List (String × JsonVal) → List String
  | [] => []
  | (k, v) :: kvs => ("\"" ++ escapeJsonString k ++ "\": " ++ jsonDumps v) :: jsonDumpsObj kvs

end

/-- Runtime value returned by a tool `_run` method.  Python distinguishes
the two cases only by runtime type: `pyJson` is the parsed-JSON object
returned by `response.json()` (a `dict` or `list`), `pyStr` is a `str`. -/
inductive PyValue where
  | pyJson (j : JsonVal) : PyValue
  | pyStr (s : String) : PyValue

/-- HTTP GET request as issued by `requests.get(url, params=query)`: the
bare URL (no query string) and the query parameters, in order. -/
structure HttpRequest where
  url : String
  params : List (String × String)

/-- HTTP response as seen by the tools: the status code, the rendered
`response.content` (the text that `print` interpolates), and the parsed
body that `response.json()` yields. -/
structure HttpResponse where
  status_code : Nat
  content : String
  body : JsonVal

/-- Process environment (`os.environ`): an association list, most recent
binding first. -/
abbrev Env := List (String × String)

/-- Lookup in the environment, first binding wins (`os.environ[k]` /
`os.getenv(k)`). -/
def envGet : Env → String → Option String
  | [], _ => none
  | (k', v) :: e, k => if k' = k then some v else envGet e k

/-- Assignment `os.environ[k] = v`: the new binding shadows any old one. -/
def envSet (e : Env) (k v : String) : Env := (k, v) :: e

/-- Outcome of a tool `_run` call: normal return of a Python value, or a
`KeyError` raised by a missing environment variable. -/
inductive RunOutcome where
  | done (v : PyValue) : RunOutcome
  | keyError : RunOutcome

/-- Observable result of one tool `_run` call: its outcome, the lines it
printed to stdout, and the HTTP requests it issued. -/
structure ToolRun where
  outcome : RunOutcome
  printed : List String
  requests : List HttpRequest

/-- Fallback payload built by both tools on a non-200 status:
`\x7b"error": "Failed to fetch card data, ..."\x7d`. -/
def errPayload : JsonVal :=
  .obj [("error", .str "Failed to fetch card data, don\x27t try to fetch any trello data anymore")]

/-- Shared final branch of both `_run` methods:
`if response.status_code == 200: return response.json() else: return json.dumps(...)`. -/
def fetchResultValue (resp : HttpResponse) : PyValue :=
  if resp.status_code = 200 then .pyJson resp.body
  else .pyStr (jsonDumps errPayload)

/-- Request built by `BoardDataFetcherTool._run`: the cards URL of the
board and the query with key, token, the requested card fields,
attachments, and comment-card actions. -/
def boardFetchRequest (base board_id api_key api_token : String) : HttpRequest :=
  { url := base ++ "/1/boards/" ++ board_id ++ "/cards",
    params := [("key", api_key), ("token", api_token),
      ("fields", "name,idList,due,dateLastActivity,labels"),
      ("attachments", "true"),
      ("actions", "commentCard")] }

/-- Request built by `CardDataFetcherTool._run`: the single-card URL and
the query with key and token only. -/
def cardFetchRequest (base card_id api_key api_token : String) : HttpRequest :=
  { url := base ++ "/1/cards/" ++ card_id,
    params := [("key", api_key), ("token", api_token)] }

/-- Embedding of `BoardDataFetcherTool._run`: read the three credentials
from the environment (a missing one raises `KeyError`), build the cards
request, issue it once, print the URL, status code and content, and
return the parsed body on status 200 or the serialised fallback payload
otherwise. -/
def BoardDataFetcherTool_run (env : Env) (http : HttpRequest → HttpResponse) : ToolRun :=
  match envGet env "TRELLO_API_KEY", envGet env "TRELLO_API_TOKEN", envGet env "TRELLO_BOARD_ID" with
  | some api_key, some api_token, some board_id =>
    let base := (envGet env "DLAI_TRELLO_BASE_URL").getD "https://api.trello.com"
    let req := boardFetchRequest base board_id api_key api_token
    let resp := http req
    { outcome := .done (fetchResultValue resp),
      printed := ["URL: " ++ req.url,
                  "Response Status Code: " ++ toString resp.status_code,
                  "Response Content: " ++ resp.content],
      requests := [req] }
  | _, _, _ => { outcome := .keyError, printed := [], requests := [] }

/-- Embedding of `CardDataFetcherTool._run`: read key and token from the
environment, build the single-card request, issue it once, print the same
three lines, and return the parsed body on status 200 or the serialised
fallback payload otherwise. -/
def CardDataFetcherTool_run (env : Env) (card_id : String)
    (http : HttpRequest → HttpResponse) : ToolRun :=
  match envGet env "TRELLO_API_KEY", envGet env "TRELLO_API_TOKEN" with
  | some api_key, some api_token =>
    let base := (envGet env "DLAI_TRELLO_BASE_URL").getD "https://api.trello.com"
    let req := cardFetchRequest base card_id api_key api_token
    let resp := http req
    { outcome := .done (fetchResultValue resp),
      printed := ["URL: " ++ req.url,
                  "Response Status Code: " ++ toString resp.status_code,
                  "Response Content: " ++ resp.content],
      requests := [req] }
  | _, _ => { outcome := .keyError, printed := [], requests := [] }

/-- Occurrence of `needle` as a contiguous substring of `hay`. -/
def occursIn (needle hay : String) : Prop :=
  ∃ a b, hay = a ++ needle ++ b

/-- Fetch tools of the repository, as constructed in `create_agents`:
`BoardDataFetcherTool()` and `CardDataFetcherTool()`. -/
inductive ToolSpec where
  | boardTool : ToolSpec
  | cardTool : ToolSpec
deriving DecidableEq

/-- Agent as constructed by `Agent(config=..., tools=...)`: its opaque
YAML configuration payload and the list of tools bound to it (crewai's
default when the argument is omitted is the empty list). -/
structure AgentSpec where
  config : String
  tools : List ToolSpec

/-- Task as constructed by `Task(config=..., agent=...)`. -/
structure TaskSpec where
  config : String
  agent : AgentSpec

/-- Contents of `config/agents.yaml` after `yaml.safe_load`: one opaque
payload per agent name. -/
structure AgentsConfig where
  data_collection_agent : String
  analysis_agent : String

/-- Contents of `config/tasks.yaml` after `yaml.safe_load`: one opaque
payload per task name. -/
structure TasksConfig where
  data_collection : String
  data_analysis : String
  report_generation : String

/-- Result of `load_yaml_configs` when it succeeds: the two parsed files,
as the dict with keys `agents` and `tasks`. -/
structure Configs where
  agents : AgentsConfig
  tasks : TasksConfig

/-- Embedding of `create_agents`: the data-collection agent is bound to
the board and card fetch tools, the analysis agent to no tools. -/
def create_agents (agents_config : AgentsConfig) : AgentSpec × AgentSpec :=
  ({ config := agents_config.data_collection_agent,
     tools := [ToolSpec.boardTool, ToolSpec.cardTool] },
   { config := agents_config.analysis_agent, tools := [] })

/-- Embedding of `create_tasks`: data collection is assigned to the
data-collection agent, data analysis and report generation both to the
analysis agent. -/
def create_tasks (tasks_config : TasksConfig)
    (data_collection_agent analysis_agent : AgentSpec) :
    TaskSpec × TaskSpec × TaskSpec :=
  ({ config := tasks_config.data_collection, agent := data_collection_agent },
   { config := tasks_config.data_analysis, agent := analysis_agent },
   { config := tasks_config.report_generation, agent := analysis_agent })

/-- Tool invocation an agent may attempt during a task. -/
inductive ToolCall where
  | boardFetch : ToolCall
  | cardFetch (card_id : String) : ToolCall

/-- Behaviour of the external reasoning substrate for one task execution:
the tool calls the agent attempts, in order, and the text it finally
produces as a function of the tool results (`none` models an exception
raised during the task). -/
structure StageBehavior where
  calls : List ToolCall
  output : List PyValue → Option String

/-- Dispatch restriction of the crewai framework: an agent can invoke a
fetch only when the corresponding tool object is bound to it. -/
def toolCallAllowed (tools : List ToolSpec) : ToolCall → Bool
  | .boardFetch => tools.contains ToolSpec.boardTool
  | .cardFetch _ => tools.contains ToolSpec.cardTool

/-- Execution of one allowed tool call: dispatch to the corresponding
`_run` method. -/
def runTool (env : Env) (http : HttpRequest → HttpResponse) : ToolCall → ToolRun
  | .boardFetch => BoardDataFetcherTool_run env http
  | .cardFetch card_id => CardDataFetcherTool_run env card_id http

/-- Python value an agent sees for one tool run; crewai reports a raised
tool exception to the agent as text rather than crashing the task. -/
def outcomeValue : RunOutcome → PyValue
  | .done v => v
  | .keyError => .pyStr "KeyError"

/-- Observable result of one task execution: the produced text (`none`
models an exception), the printed lines and the requests issued by its
tool calls. -/
structure StageRun where
  output : Option String
  printed : List String
  requests : List HttpRequest

/-- Execution of a single task: the agent attempts its tool calls, the
framework executes those bound to the agent, and the agent produces its
output from the tool results. -/
def executeTask (env : Env) (http : HttpRequest → HttpResponse)
    (behave : TaskSpec → String → StageBehavior) (t : TaskSpec) (ctx : String) : StageRun :=
  let b := behave t ctx
  let runs := (b.calls.filter (toolCallAllowed t.agent.tools)).map (runTool env http)
  { output := b.output (runs.map fun r => outcomeValue r.outcome),
    printed := (runs.map ToolRun.printed).flatten,
    requests := (runs.map ToolRun.requests).flatten }

/-- Observable result of one `crew.kickoff()` call: the tasks invoked (by
their configuration payload, in order), the requests issued, the printed
lines, and the final raw text (`none` models a propagated exception). -/
structure PipelineRun where
  invoked : List String
  requests : List HttpRequest
  printed : List String
  result : Option String

/-- Embedding of the sequential `Crew.kickoff` contract: tasks run in
order, each receiving the previous task's output as its context; a task
exception aborts the run and the remaining tasks are not invoked;
`result.raw` is the last task's output. -/
def kickoffAux (env : Env) (http : HttpRequest → HttpResponse)
    (behave : TaskSpec → String → StageBehavior) : List TaskSpec → String → PipelineRun
  | [], ctx => { invoked := [], requests := [], printed := [], result := some ctx }
  | t :: rest, ctx =>
    let s := executeTask env http behave t ctx
    match s.output with
    | none =>
      { invoked := [t.config], requests := s.requests, printed := s.printed, result := none }
    | some out =>
      let r := kickoffAux env http behave rest out
      { invoked := t.config :: r.invoked, requests := s.requests ++ r.requests,
        printed := s.printed ++ r.printed, result := r.result }

/-- Environment after the three credential assignments at the top of
`generate_trello_report`. -/
def appEnv (env0 : Env) (api_key api_token board_id : String) : Env :=
  envSet (envSet (envSet env0 "TRELLO_API_KEY" api_key)
    "TRELLO_API_TOKEN" api_token) "TRELLO_BOARD_ID" board_id

/-- First task of the crew: data collection, bound to the fetch-capable
agent. -/
def dataCollectionTask (c : Configs) : TaskSpec :=
  (create_tasks c.tasks (create_agents c.agents).1 (create_agents c.agents).2).1

/-- Second task of the crew: data analysis, bound to the tool-free
analysis agent. -/
def dataAnalysisTask (c : Configs) : TaskSpec :=
  (create_tasks c.tasks (create_agents c.agents).1 (create_agents c.agents).2).2.1

/-- Third task of the crew: report generation, bound to the tool-free
analysis agent. -/
def reportGenerationTask (c : Configs) : TaskSpec :=
  (create_tasks c.tasks (create_agents c.agents).1 (create_agents c.agents).2).2.2

/-- Task list passed to `Crew(tasks=[data_collection, data_analysis,
report_generation], ...)`. -/
def pipelineTasks (c : Configs) : List TaskSpec :=
  [dataCollectionTask c, dataAnalysisTask c, reportGenerationTask c]

/-- Observable result of one `generate_trello_report` call: the
environment after the run, the messages routed to the UI via `st.error`,
and the traces and result of the crew run. -/
structure AppRun where
  env : Env
  uiErrors : List String
  invoked : List String
  requests : List HttpRequest
  printed : List String
  result : Option String

/-- Embedding of `generate_trello_report`: store the three credentials in
the process environment, load the YAML configurations (`none` models the
`load_yaml_configs` failure path), create the agents and tasks, run the
crew, and return `result.raw` — or `None` with an `st.error` message when
configuration loading fails or the crew raises. -/
def generate_trello_report (env0 : Env) (api_key api_token board_id : String)
    (configs : Option Configs) (behave : TaskSpec → String → StageBehavior)
    (http : HttpRequest → HttpResponse) : AppRun :=
  let env := appEnv env0 api_key api_token board_id
  match configs with
  | none =>
    { env := env, uiErrors := ["Failed to load configurations"],
      invoked := [], requests := [], printed := [], result := none }
  | some c =>
    let run := kickoffAux env http behave (pipelineTasks c) ""
    match run.result with
    | some raw =>
      { env := env, uiErrors := [], invoked := run.invoked,
        requests := run.requests, printed := run.printed, result := some raw }
    | none =>
      { env := env, uiErrors := ["Error generating report"], invoked := run.invoked,
        requests := run.requests, printed := run.printed, result := none }

/-- Example configuration payload set, standing for the parsed YAML files. -/
def cEx : Configs :=
  { agents := { data_collection_agent := "dca_cfg", analysis_agent := "aa_cfg" },
    tasks := { data_collection := "dc", data_analysis := "da", report_generation := "rg" } }

/-- Example HTTP layer that answers every request with status 200 and an
empty card array. -/
def httpEx (_ : HttpRequest) : HttpResponse :=
  { status_code := 200, content := "ok", body := .arr [] }

/-- Example HTTP layer that answers every request with status 401. -/
def http401 (_ : HttpRequest) : HttpResponse :=
  { status_code := 401, content := "invalid key", body := .null }

/-- Example HTTP layer that answers every request with status 404. -/
def http404 (_ : HttpRequest) : HttpResponse :=
  { status_code := 404, content := "not found", body := .null }

/-- Example board of three cards, as the parsed body of a 200 response to
the cards request. -/
def cardsEx : List JsonVal :=
  [.obj [("name", .str "card one"), ("idList", .str "todo")],
   .obj [("name", .str "card two"), ("idList", .str "doing")],
   .obj [("name", .str "card three"), ("idList", .str "done")]]

/-- Example HTTP layer that answers every request with status 200 and the
three-card board as body. -/
def httpCards (_ : HttpRequest) : HttpResponse :=
  { status_code := 200, content := "cards", body := .arr cardsEx }

/-- Example reasoning substrate that makes no tool calls and returns a
text extending its input context with the task configuration name. -/
def behaveEx (t : TaskSpec) (ctx : String) : StageBehavior :=
  { calls := [], output := fun _ => some (ctx ++ "." ++ t.config) }

/-- Example reasoning substrate in which every agent attempts a board
fetch and then reports a fixed text regardless of the fetch result. -/
def behaveFetch (_ : TaskSpec) (_ : String) : StageBehavior :=
  { calls := [ToolCall.boardFetch], output := fun _ => some "report" }

/-- Example environment holding the three Trello credentials. -/
def envEx : Env :=
  [("TRELLO_API_KEY", "key123"), ("TRELLO_API_TOKEN", "tok123"), ("TRELLO_BOARD_ID", "board1")]

/-- Example environment whose API token is a recognisable secret. -/
def envTok : Env :=
  [("TRELLO_API_KEY", "key123"), ("TRELLO_API_TOKEN", "SECRET_TOKEN_XYZ"),
   ("TRELLO_BOARD_ID", "board1")]

/-- Example HTTP layer whose error response echoes the API token in its
body, as an external service may do. -/
def httpEcho (_ : HttpRequest) : HttpResponse :=
  { status_code := 401, content := "invalid token SECRET_TOKEN_XYZ", body := .null }

theorem envGet_envSet_self (e : Env) (k v : String) : envGet (envSet e k v) k = some v := by
  simp [envGet, envSet]

theorem envGet_envSet_ne (e : Env) (k' k v : String) (h : k' ≠ k) :
    envGet (envSet e k' v) k = envGet e k := by
  simp [envGet, envSet, h]

theorem executeTask_noTools (env : Env) (http : HttpRequest → HttpResponse)
    (behave : TaskSpec → String → StageBehavior) (nm cfg ctx : String) :
    (executeTask env http behave ⟨nm, ⟨cfg, []⟩⟩ ctx).requests = [] := by
  have h : ∀ l : List ToolCall, l.filter (toolCallAllowed ([] : List ToolSpec)) = [] := by
    intro l
    apply List.filter_eq_nil_iff.mpr
    intro a _
    cases a <;> simp [toolCallAllowed]
  simp [executeTask, h]

theorem generate_env_eq (env0 : Env) (api_key api_token board_id : String)
    (configs : Option Configs) (behave : TaskSpec → String → StageBehavior)
    (http : HttpRequest → HttpResponse) :
    (generate_trello_report env0 api_key api_token board_id configs behave http).env
      = appEnv env0 api_key api_token board_id := by
  cases configs with
  | none => rfl
  | some c =>
    unfold generate_trello_report
    cases h : (kickoffAux (appEnv env0 api_key api_token board_id) http behave (pipelineTasks c) "").result <;>
      simp [h]

theorem generate_invoked_eq (env0 : Env) (api_key api_token board_id : String) (c : Configs)
    (behave : TaskSpec → String → StageBehavior) (http : HttpRequest → HttpResponse) :
    (generate_trello_report env0 api_key api_token board_id (some c) behave http).invoked
      = (kickoffAux (appEnv env0 api_key api_token board_id) http behave (pipelineTasks c) "").invoked := by
  unfold generate_trello_report
  cases h : (kickoffAux (appEnv env0 api_key api_token board_id) http behave (pipelineTasks c) "").result <;>
    simp [h]

theorem generate_requests_eq (env0 : Env) (api_key api_token board_id : String) (c : Configs)
    (behave : TaskSpec → String → StageBehavior) (http : HttpRequest → HttpResponse) :
    (generate_trello_report env0 api_key api_token board_id (some c) behave http).requests
      = (kickoffAux (appEnv env0 api_key api_token board_id) http behave (pipelineTasks c) "").requests := by
  unfold generate_trello_report
  cases h : (kickoffAux (appEnv env0 api_key api_token board_id) http behave (pipelineTasks c) "").result <;>
    simp [h]

theorem generate_result_eq (env0 : Env) (api_key api_token board_id : String) (c : Configs)
    (behave : TaskSpec → String → StageBehavior) (http : HttpRequest → HttpResponse) :
    (generate_trello_report env0 api_key api_token board_id (some c) behave http).result
      = (kickoffAux (appEnv env0 api_key api_token board_id) http behave (pipelineTasks c) "").result := by
  unfold generate_trello_report
  cases h : (kickoffAux (appEnv env0 api_key api_token board_id) http behave (pipelineTasks c) "").result <;>
    simp [h]

/-- C1: the claim says that on every non-2xx status both fetch operations
return a typed `FetchFailed` error and never a value that type-checks as
successful data.  The code does the opposite: on status 401 both `_run`
methods return normally (`RunOutcome.done`), handing back a JSON-encoded
`str` payload — data-shaped, annotated as `dict` in the source — with no
error type anywhere.  This evaluates the embedded code at that failing
input. -/
theorem C1_fetch_failure_disguised :
    (BoardDataFetcherTool_run envEx http401).outcome =
      .done (.pyStr "\x7b\"error\": \"Failed to fetch card data, don\x27t try to fetch any trello data anymore\"\x7d") ∧
    (CardDataFetcherTool_run envEx "c1" http401).outcome =
      .done (.pyStr "\x7b\"error\": \"Failed to fetch card data, don\x27t try to fetch any trello data anymore\"\x7d") ∧
    (http401 (boardFetchRequest "https://api.trello.com" "board1" "key123" "tok123")).status_code = 401 :=
  ⟨rfl, rfl, rfl⟩

/-- C5: the data-collection agent is bound to exactly the board and card
fetch tools, the analysis and report tasks are bound to the tool-free
analysis agent, and executing a task of the tool-free agent issues no
fetch request, whatever tool calls the reasoning substrate attempts. -/
theorem C5_capability_isolation (ac : AgentsConfig) (tc : TasksConfig) (env : Env)
    (http : HttpRequest → HttpResponse) (behave : TaskSpec → String → StageBehavior)
    (ctx : String) :
    (create_agents ac).1.tools = [ToolSpec.boardTool, ToolSpec.cardTool] ∧
    (create_agents ac).2.tools = [] ∧
    (create_tasks tc (create_agents ac).1 (create_agents ac).2).1.agent = (create_agents ac).1 ∧
    (create_tasks tc (create_agents ac).1 (create_agents ac).2).2.1.agent = (create_agents ac).2 ∧
    (create_tasks tc (create_agents ac).1 (create_agents ac).2).2.2.agent = (create_agents ac).2 ∧
    (executeTask env http behave (create_tasks tc (create_agents ac).1 (create_agents ac).2).2.1 ctx).requests = [] ∧
    (executeTask env http behave (create_tasks tc (create_agents ac).1 (create_agents ac).2).2.2 ctx).requests = [] :=
  ⟨rfl, rfl, rfl, rfl, rfl,
   executeTask_noTools env http behave tc.data_analysis ac.analysis_agent ctx,
   executeTask_noTools env http behave tc.report_generation ac.analysis_agent ctx⟩

/-- C7 counterexample: the claim says that after a run no process-wide
mutable state retains the credentials.  On a concrete run starting from
the empty environment, `generate_trello_report` leaves all three
credentials stored in the process environment. -/
theorem C7_counterexample :
    envGet ([] : Env) "TRELLO_API_KEY" = none ∧
    envGet (generate_trello_report [] "SECRETKEY" "SECRETTOK" "B1" (some cEx) behaveEx httpEx).env
      "TRELLO_API_KEY" = some "SECRETKEY" ∧
    envGet (generate_trello_report [] "SECRETKEY" "SECRETTOK" "B1" (some cEx) behaveEx httpEx).env
      "TRELLO_API_TOKEN" = some "SECRETTOK" ∧
    envGet (generate_trello_report [] "SECRETKEY" "SECRETTOK" "B1" (some cEx) behaveEx httpEx).env
      "TRELLO_BOARD_ID" = some "B1" :=
  ⟨rfl, rfl, rfl, rfl⟩

/-- C7 amended: credentials are passed through the process environment,
not by value: `generate_trello_report` writes the three `TRELLO_*`
variables into the environment, and after every run — whatever the
configuration outcome, agent behaviour or HTTP responses — the
environment still maps them to the supplied credentials. -/
theorem C7_env_retains_credentials (env0 : Env) (api_key api_token board_id : String)
    (configs : Option Configs) (behave : TaskSpec → String → StageBehavior)
    (http : HttpRequest → HttpResponse) :
    (generate_trello_report env0 api_key api_token board_id configs behave http).env
      = appEnv env0 api_key api_token board_id ∧
    envGet (appEnv env0 api_key api_token board_id) "TRELLO_API_KEY" = some api_key ∧
    envGet (appEnv env0 api_key api_token board_id) "TRELLO_API_TOKEN" = some api_token ∧
    envGet (appEnv env0 api_key api_token board_id) "TRELLO_BOARD_ID" = some board_id := by
  refine ⟨generate_env_eq env0 api_key api_token board_id configs behave http, ?_, ?_, ?_⟩ <;>
    simp [appEnv, envGet, envSet]

/-- C9: the claim says credentials are never emitted in cleartext to any
output channel and the fetchers do not print request or response content
containing credential material.  The code prints the full response
content unconditionally: on a run whose 401 response echoes the API
token, the fetcher prints a line containing the token in cleartext. -/
theorem C9_credentials_printed :
    (BoardDataFetcherTool_run envTok httpEcho).printed =
      ["URL: https://api.trello.com/1/boards/board1/cards",
       "Response Status Code: 401",
       "Response Content: invalid token SECRET_TOKEN_XYZ"] ∧
    occursIn "SECRET_TOKEN_XYZ" "Response Content: invalid token SECRET_TOKEN_XYZ" ∧
    envGet envTok "TRELLO_API_TOKEN" = some "SECRET_TOKEN_XYZ" :=
  ⟨rfl, ⟨"Response Content: invalid token ", "", by decide⟩, rfl⟩

/-- C2 counterexample: the claim says every failure of any stage is
observable by the caller and no failure is silently swallowed.  On a
concrete run in which the board fetch fails with status 401 — the tool
returning the disguised error payload — the crew still completes and
`generate_trello_report` hands the caller an ordinary report text with no
error signal at all. -/
theorem C2_counterexample :
    (generate_trello_report [] "k" "t" "b" (some cEx) behaveFetch http401).requests =
      [boardFetchRequest "https://api.trello.com" "b" "k" "t"] ∧
    (http401 (boardFetchRequest "https://api.trello.com" "b" "k" "t")).status_code = 401 ∧
    (BoardDataFetcherTool_run (appEnv [] "k" "t" "b") http401).outcome =
      .done (.pyStr (jsonDumps errPayload)) ∧
    (generate_trello_report [] "k" "t" "b" (some cEx) behaveFetch http401).result = some "report" ∧
    (generate_trello_report [] "k" "t" "b" (some cEx) behaveFetch http401).uiErrors = [] :=
  ⟨rfl, rfl, rfl, rfl, rfl⟩

/-- C2 amended: failures of configuration loading and exceptions raised
during crew execution are observable — the caller receives `None` (not a
structured error: the message itself goes to the UI), and no partial
report is returned on those paths, the result being exactly the crew
run's result.  Fetch failures, however, are delivered to the agent as
data and are not stage failures, so they reach the caller only if the
agent itself fails. -/
theorem C2_failure_propagation (env0 : Env) (api_key api_token board_id : String)
    (behave : TaskSpec → String → StageBehavior) (http : HttpRequest → HttpResponse) :
    ((generate_trello_report env0 api_key api_token board_id none behave http).result = none ∧
     (generate_trello_report env0 api_key api_token board_id none behave http).uiErrors =
       ["Failed to load configurations"]) ∧
    ∀ c : Configs,
      (generate_trello_report env0 api_key api_token board_id (some c) behave http).result =
        (kickoffAux (appEnv env0 api_key api_token board_id) http behave (pipelineTasks c) "").result ∧
      (generate_trello_report env0 api_key api_token board_id (some c) behave http).uiErrors =
        (match (kickoffAux (appEnv env0 api_key api_token board_id) http behave (pipelineTasks c) "").result with
         | some _ => []
         | none => ["Error generating report"]) := by
  refine ⟨⟨rfl, rfl⟩, fun c => ⟨generate_result_eq env0 api_key api_token board_id c behave http, ?_⟩⟩
  unfold generate_trello_report
  cases h : (kickoffAux (appEnv env0 api_key api_token board_id) http behave (pipelineTasks c) "").result <;>
    simp [h]

/-- C3: when all three stages succeed, `generate_trello_report` returns
exactly the raw text produced by the third (report-generation) stage. -/
theorem C3_output_is_stage3 (env0 : Env) (api_key api_token board_id : String) (c : Configs)
    (behave : TaskSpec → String → StageBehavior) (http : HttpRequest → HttpResponse)
    (o1 o2 o3 : String)
    (h1 : (executeTask (appEnv env0 api_key api_token board_id) http behave
            (dataCollectionTask c) "").output = some o1)
    (h2 : (executeTask (appEnv env0 api_key api_token board_id) http behave
            (dataAnalysisTask c) o1).output = some o2)
    (h3 : (executeTask (appEnv env0 api_key api_token board_id) http behave
            (reportGenerationTask c) o2).output = some o3) :
    (generate_trello_report env0 api_key api_token board_id (some c) behave http).result
      = some o3 := by
  rw [generate_result_eq]
  simp [pipelineTasks, kickoffAux, h1, h2, h3]

/-- C3 witness: a concrete run in which every stage succeeds, showing the
pipeline result is the third stage's text. -/
theorem C3_output_is_stage3_witness :
    (executeTask (appEnv [] "k" "t" "b") httpEx behaveEx (dataCollectionTask cEx) "").output
      = some ".dc" ∧
    (executeTask (appEnv [] "k" "t" "b") httpEx behaveEx (dataAnalysisTask cEx) ".dc").output
      = some ".dc.da" ∧
    (executeTask (appEnv [] "k" "t" "b") httpEx behaveEx (reportGenerationTask cEx) ".dc.da").output
      = some ".dc.da.rg" ∧
    (generate_trello_report [] "k" "t" "b" (some cEx) behaveEx httpEx).result = some ".dc.da.rg" :=
  ⟨rfl, rfl, rfl,
   C3_output_is_stage3 [] "k" "t" "b" cEx behaveEx httpEx ".dc" ".dc.da" ".dc.da.rg" rfl rfl rfl⟩

/-- C4: the orchestrator runs the stages strictly in the order data
collection, data analysis, report generation, and a later stage is
invoked exactly when every earlier stage returned a successful result:
the invocation trace is determined, stage by stage, by the previous
stage's success. -/
theorem C4_stage_sequencing (env0 : Env) (api_key api_token board_id : String) (c : Configs)
    (behave : TaskSpec → String → StageBehavior) (http : HttpRequest → HttpResponse) :
    (generate_trello_report env0 api_key api_token board_id (some c) behave http).invoked =
      (match (executeTask (appEnv env0 api_key api_token board_id) http behave
               (dataCollectionTask c) "").output with
       | none => [c.tasks.data_collection]
       | some o1 =>
         match (executeTask (appEnv env0 api_key api_token board_id) http behave
                 (dataAnalysisTask c) o1).output with
         | none => [c.tasks.data_collection, c.tasks.data_analysis]
         | some _ => [c.tasks.data_collection, c.tasks.data_analysis,
                      c.tasks.report_generation]) := by
  rw [generate_invoked_eq]
  cases h1 : (executeTask (appEnv env0 api_key api_token board_id) http behave
      (dataCollectionTask c) "").output with
  | none =>
    simp only [pipelineTasks, kickoffAux, h1]
    rfl
  | some o1 =>
    cases h2 : (executeTask (appEnv env0 api_key api_token board_id) http behave
        (dataAnalysisTask c) o1).output with
    | none =>
      simp only [pipelineTasks, kickoffAux, h1, h2]
      rfl
    | some o2 =>
      cases h3 : (executeTask (appEnv env0 api_key api_token board_id) http behave
          (reportGenerationTask c) o2).output with
      | none =>
        simp only [pipelineTasks, kickoffAux, h1, h2, h3]
        rfl
      | some o3 =>
        simp only [pipelineTasks, kickoffAux, h1, h2, h3]
        rfl

/-- C6 counterexample: the claim says a missing credential makes the
pipeline fail with a `ConfigurationError` before any network call.  On a
concrete run with an empty board id, `generate_trello_report` performs no
validation: the board-cards network request is issued (with the empty id
spliced into the URL) and the run completes as a success, with no error
of any kind. -/
theorem C6_counterexample :
    (generate_trello_report [] "k" "t" "" (some cEx) behaveFetch httpEx).requests =
      [boardFetchRequest "https://api.trello.com" "" "k" "t"] ∧
    (boardFetchRequest "https://api.trello.com" "" "k" "t").url =
      "https://api.trello.com/1/boards//cards" ∧
    (generate_trello_report [] "k" "t" "" (some cEx) behaveFetch httpEx).result = some "report" ∧
    (generate_trello_report [] "k" "t" "" (some cEx) behaveFetch httpEx).uiErrors = [] :=
  ⟨rfl, rfl, rfl, rfl⟩

/-- C6 amended: `generate_trello_report` performs no credential
validation and no `ConfigurationError` exists in the pipeline; with a
missing (empty) board id the run proceeds and, as soon as the
data-collection agent attempts its board fetch, the network request is
issued carrying the empty credential.  The only missing-credential guard
is in the out-of-scope UI caller. -/
theorem C6_no_credential_validation (env0 : Env) (api_key api_token : String) (c : Configs)
    (behave : TaskSpec → String → StageBehavior) (http : HttpRequest → HttpResponse)
    (hbase : envGet env0 "DLAI_TRELLO_BASE_URL" = none)
    (hcalls : (behave (dataCollectionTask c) "").calls = [ToolCall.boardFetch]) :
    (generate_trello_report env0 api_key api_token "" (some c) behave http).requests =
      [boardFetchRequest "https://api.trello.com" "" api_key api_token] := by
  have hrun : (BoardDataFetcherTool_run (appEnv env0 api_key api_token "") http).requests =
      [boardFetchRequest "https://api.trello.com" "" api_key api_token] := by
    simp [BoardDataFetcherTool_run, appEnv, envSet, envGet, hbase]
  have hs1 : (executeTask (appEnv env0 api_key api_token "") http behave
      (dataCollectionTask c) "").requests =
      [boardFetchRequest "https://api.trello.com" "" api_key api_token] := by
    simp only [executeTask, hcalls]
    simp [dataCollectionTask, create_tasks, create_agents, toolCallAllowed, runTool, hrun]
  have hs2 : ∀ ctx, (executeTask (appEnv env0 api_key api_token "") http behave
      (dataAnalysisTask c) ctx).requests = [] := fun ctx =>
    executeTask_noTools (appEnv env0 api_key api_token "") http behave
      c.tasks.data_analysis c.agents.analysis_agent ctx
  have hs3 : ∀ ctx, (executeTask (appEnv env0 api_key api_token "") http behave
      (reportGenerationTask c) ctx).requests = [] := fun ctx =>
    executeTask_noTools (appEnv env0 api_key api_token "") http behave
      c.tasks.report_generation c.agents.analysis_agent ctx
  rw [generate_requests_eq]
  cases h1 : (executeTask (appEnv env0 api_key api_token "") http behave
      (dataCollectionTask c) "").output with
  | none =>
    simp only [pipelineTasks, kickoffAux, h1]
    exact hs1
  | some o1 =>
    cases h2 : (executeTask (appEnv env0 api_key api_token "") http behave
        (dataAnalysisTask c) o1).output with
    | none =>
      simp only [pipelineTasks, kickoffAux, h1, h2]
      simp [hs1, hs2]
    | some o2 =>
      cases h3 : (executeTask (appEnv env0 api_key api_token "") http behave
          (reportGenerationTask c) o2).output with
      | none =>
        simp only [pipelineTasks, kickoffAux, h1, h2, h3]
        simp [hs1, hs2, hs3]
      | some o3 =>
        simp only [pipelineTasks, kickoffAux, h1, h2, h3]
        simp [hs1, hs2, hs3]

/-- C6 amended, witness: a concrete run with an empty board id in which
the data-collection agent attempts a board fetch and the request is
issued with the empty credential. -/
theorem C6_no_credential_validation_witness :
    envGet ([] : Env) "DLAI_TRELLO_BASE_URL" = none ∧
    (behaveFetch (dataCollectionTask cEx) "").calls = [ToolCall.boardFetch] ∧
    (generate_trello_report [] "k2" "t2" "" (some cEx) behaveFetch httpEx).requests =
      [boardFetchRequest "https://api.trello.com" "" "k2" "t2"] :=
  ⟨rfl, rfl, C6_no_credential_validation [] "k2" "t2" cEx behaveFetch httpEx rfl rfl⟩

/-- C8: `BoardDataFetcherTool._run` issues exactly one request — for the
board's cards, with query fields name, idList, due, dateLastActivity and
labels, attachments, and comment-card actions — and on a 200 response
returns the parsed body; when that body is a JSON array of cards the
returned value is that array, one entry per card, in order. -/
theorem C8_board_fetch_contract (env : Env) (http : HttpRequest → HttpResponse)
    (api_key api_token board_id : String)
    (hk : envGet env "TRELLO_API_KEY" = some api_key)
    (ht : envGet env "TRELLO_API_TOKEN" = some api_token)
    (hb : envGet env "TRELLO_BOARD_ID" = some board_id) :
    (BoardDataFetcherTool_run env http).requests =
      [boardFetchRequest ((envGet env "DLAI_TRELLO_BASE_URL").getD "https://api.trello.com")
        board_id api_key api_token] ∧
    (boardFetchRequest ((envGet env "DLAI_TRELLO_BASE_URL").getD "https://api.trello.com")
        board_id api_key api_token).params =
      [("key", api_key), ("token", api_token),
       ("fields", "name,idList,due,dateLastActivity,labels"),
       ("attachments", "true"), ("actions", "commentCard")] ∧
    ((http (boardFetchRequest ((envGet env "DLAI_TRELLO_BASE_URL").getD "https://api.trello.com")
        board_id api_key api_token)).status_code = 200 →
      (BoardDataFetcherTool_run env http).outcome =
        .done (.pyJson (http (boardFetchRequest
          ((envGet env "DLAI_TRELLO_BASE_URL").getD "https://api.trello.com")
          board_id api_key api_token)).body)) ∧
    (∀ cards : List JsonVal,
      (http (boardFetchRequest ((envGet env "DLAI_TRELLO_BASE_URL").getD "https://api.trello.com")
        board_id api_key api_token)).status_code = 200 →
      (http (boardFetchRequest ((envGet env "DLAI_TRELLO_BASE_URL").getD "https://api.trello.com")
        board_id api_key api_token)).body = .arr cards →
      (BoardDataFetcherTool_run env http).outcome = .done (.pyJson (.arr cards))) := by
  unfold BoardDataFetcherTool_run
  rw [hk, ht, hb]
  refine ⟨rfl, rfl, ?_, ?_⟩
  · intro h200
    simp [fetchResultValue, h200]
  · intro cards h200 hbody
    simp [fetchResultValue, h200, hbody]

/-- C8 witness: a concrete environment and a 200 response carrying a
three-card board, for which the tool issues the single expected request
and returns the three cards in order. -/
theorem C8_board_fetch_contract_witness :
    envGet envEx "TRELLO_API_KEY" = some "key123" ∧
    envGet envEx "TRELLO_API_TOKEN" = some "tok123" ∧
    envGet envEx "TRELLO_BOARD_ID" = some "board1" ∧
    (BoardDataFetcherTool_run envEx httpCards).requests =
      [boardFetchRequest "https://api.trello.com" "board1" "key123" "tok123"] ∧
    (BoardDataFetcherTool_run envEx httpCards).outcome = .done (.pyJson (.arr cardsEx)) ∧
    cardsEx.length = 3 := by
  have h := C8_board_fetch_contract envEx httpCards "key123" "tok123" "board1" rfl rfl rfl
  exact ⟨rfl, rfl, rfl, h.1, h.2.2.2 cardsEx rfl rfl, rfl⟩

/-- C10: on every non-200 status both `_run` methods return the identical
JSON-encoded string — a `str`, although the methods are annotated `->
dict` — while on 200 they return the parsed JSON body, so failure is
distinguishable from success only by the value's runtime type and
content, never by a tagged error result. -/
theorem C10_both_tools_identical_fallback (env : Env) (http : HttpRequest → HttpResponse)
    (card_id api_key api_token board_id : String)
    (hk : envGet env "TRELLO_API_KEY" = some api_key)
    (ht : envGet env "TRELLO_API_TOKEN" = some api_token)
    (hb : envGet env "TRELLO_BOARD_ID" = some board_id) :
    (BoardDataFetcherTool_run env http).outcome =
      .done (fetchResultValue (http (boardFetchRequest
        ((envGet env "DLAI_TRELLO_BASE_URL").getD "https://api.trello.com")
        board_id api_key api_token))) ∧
    (CardDataFetcherTool_run env card_id http).outcome =
      .done (fetchResultValue (http (cardFetchRequest
        ((envGet env "DLAI_TRELLO_BASE_URL").getD "https://api.trello.com")
        card_id api_key api_token))) ∧
    (∀ resp : HttpResponse, resp.status_code ≠ 200 →
      fetchResultValue resp =
        .pyStr "\x7b\"error\": \"Failed to fetch card data, don\x27t try to fetch any trello data anymore\"\x7d") ∧
    (∀ resp : HttpResponse, resp.status_code = 200 →
      fetchResultValue resp = .pyJson resp.body) := by
  refine ⟨?_, ?_, ?_, ?_⟩
  · unfold BoardDataFetcherTool_run
    rw [hk, ht, hb]
  · unfold CardDataFetcherTool_run
    rw [hk, ht]
  · intro resp h
    unfold fetchResultValue
    rw [if_neg h]
    rfl
  · intro resp h
    unfold fetchResultValue
    rw [if_pos h]

/-- C10 witness: a concrete 404 run on which both tools return the same
disguised error string. -/
theorem C10_both_tools_identical_fallback_witness :
    envGet envEx "TRELLO_API_KEY" = some "key123" ∧
    envGet envEx "TRELLO_API_TOKEN" = some "tok123" ∧
    envGet envEx "TRELLO_BOARD_ID" = some "board1" ∧
    (BoardDataFetcherTool_run envEx http404).outcome =
      .done (.pyStr "\x7b\"error\": \"Failed to fetch card data, don\x27t try to fetch any trello data anymore\"\x7d") ∧
    (CardDataFetcherTool_run envEx "c1" http404).outcome =
      .done (.pyStr "\x7b\"error\": \"Failed to fetch card data, don\x27t try to fetch any trello data anymore\"\x7d") := by
  have h := C10_both_tools_identical_fallback envEx http404 "c1" "key123" "tok123" "board1"
    rfl rfl rfl
  refine ⟨rfl, rfl, rfl, ?_, ?_⟩
  · rw [h.1, h.2.2.1 _ (by decide)]
  · rw [h.2.1, h.2.2.1 _ (by decide)]
